import Mathlib

/-!
Verification development for the curl.club curling physics engine.

The JavaScript sources are shallowly embedded over the real numbers:
JS `number` arithmetic is modelled as exact real arithmetic, `Math.max` /
`Math.min` as `max` / `min`, `Math.floor` as `Int.floor`, `Math.sqrt` as
`Real.sqrt`, `Math.cos` / `Math.sin` as `Real.cos` / `Real.sin`, and
`Math.atan2` via `Complex.arg`.  The 48 x 16 ice grid is modelled as a total
function from integer cell indices to cells; all the source's accesses are
index-clamped, and the embedded operations only write in-range cells, so the
function model agrees with the JS array on every reachable access.

Sources embedded here:
  * `physics-sim.js` (headless simulator): `IceGrid`, `ICE_PROFILES`,
    `simulate` and its force model / tick loop,
  * `App.jsx` (game component): `resolveCollisions`, `removeRock`,
    `physicsTick`, `scoreEnd`, the five-profile `ICE_PROFILES` table and the
    `v / (v*v + 0.5)` velocity factor.
-/

namespace CurlClub

noncomputable section

/-! ## World geometry and tuning constants (shared by both sources) -/

def rockRadius : ℝ := 5

def RESTITUTION : ℝ := 0.92

def sheetHalfWidth : ℝ := 82

def sheetStart : ℝ := 50

def sheetEnd : ℝ := -680

def hogLine : ℝ := -380

def tLine : ℝ := -540

def backLine : ℝ := -612

def hackPos : ℝ := -100

def houseCenterX : ℝ := -540

def houseCenterY : ℝ := 0

/-- `WORLD.houseRadii[3]`, the outer house ring radius. -/
def houseRadius3 : ℝ := 72

def GRID_COLS : ℤ := 48

def GRID_ROWS : ℤ := 16

def GRID_X_MIN : ℝ := sheetEnd

def GRID_X_MAX : ℝ := sheetStart

def GRID_Y_MIN : ℝ := -sheetHalfWidth

def GRID_Y_MAX : ℝ := sheetHalfWidth

def CELL_W : ℝ := (GRID_X_MAX - GRID_X_MIN) / 48

def CELL_H : ℝ := (GRID_Y_MAX - GRID_Y_MIN) / 16

def CURL_SAMPLE_OFFSET : ℝ := rockRadius * 0.8

/-- Tuning parameter record (`DEFAULTS` with overrides merged in the source;
here a caller passes the full record). -/
structure Tune where
  baseFriction : ℝ
  pebbleFrictionBonus : ℝ
  curlCoeff : ℝ
  gradientCoeff : ℝ
  slopeGravity : ℝ
  frictionDecel : ℝ
  speedScale : ℝ
  wearRate : ℝ
  sweepBoost : ℝ

/-- `DEFAULTS` of the headless simulator `physics-sim.js`. -/
def DEFAULTS_SIM : Tune :=
  ⟨0.08, 0.07, 40, 8, 18, 5, 60, 0.0015, 0.15⟩

/-- `DEFAULTS` of the game component `App.jsx`. -/
def DEFAULTS_APP : Tune :=
  ⟨0.08, 0.07, 35, 8, 18, 9, 60, 0.0015, 0.25⟩

/-! ## Ice grid -/

structure Cell where
  pebbleHeight : ℝ
  temperature : ℝ
  moisture : ℝ
  slopeX : ℝ
  slopeY : ℝ

/-- `createCell()`. -/
def createCell : Cell := ⟨1, 0, 0, 0, 0⟩

/-- The grid as a total function on integer cell indices (see header note). -/
def Grid : Type := ℤ → ℤ → Cell

/-- `new IceGrid()`: every cell fresh. -/
def freshGrid : Grid := fun _ _ => createCell

/-- Valid index range of the 48 x 16 cell array. -/
def inRange (c r : ℤ) : Prop := 0 ≤ c ∧ c < GRID_COLS ∧ 0 ≤ r ∧ r < GRID_ROWS

instance (c r : ℤ) : Decidable (inRange c r) := by unfold inRange; infer_instance

/-- `cellFriction(cell, bf, pb)`. -/
def cellFriction (cell : Cell) (bf pb : ℝ) : ℝ :=
  max 0.02 (bf + cell.pebbleHeight * pb - cell.moisture * 0.03 + cell.temperature * 0.002)

/-- Fractional grid x-coordinate of `_bilinear` (cell-center convention). -/
def fracX (wx : ℝ) : ℝ := (wx - GRID_X_MIN) / CELL_W - 0.5

/-- Fractional grid y-coordinate of `_bilinear`. -/
def fracY (wy : ℝ) : ℝ := (wy - GRID_Y_MIN) / CELL_H - 0.5

/-- `c0` of `_bilinear`: base column index, clamped to `[0, GRID_COLS-2]`. -/
def baseCol (wx : ℝ) : ℤ := max 0 (min (GRID_COLS - 2) ⌊fracX wx⌋)

/-- `r0` of `_bilinear`: base row index, clamped to `[0, GRID_ROWS-2]`. -/
def baseRow (wy : ℝ) : ℤ := max 0 (min (GRID_ROWS - 2) ⌊fracY wy⌋)

/-- `tx` of `_bilinear`: x interpolation weight, clamped to `[0, 1]`. -/
def weightX (wx : ℝ) : ℝ := max 0 (min 1 (fracX wx - baseCol wx))

/-- `ty` of `_bilinear`: y interpolation weight, clamped to `[0, 1]`. -/
def weightY (wy : ℝ) : ℝ := max 0 (min 1 (fracY wy - baseRow wy))

/-- `IceGrid._bilinear(wx, wy, fn)`. -/
def bilinear (g : Grid) (wx wy : ℝ) (fn : Cell → ℝ) : ℝ :=
  let c0 := baseCol wx
  let r0 := baseRow wy
  let tx := weightX wx
  let ty := weightY wy
  fn (g c0 r0) * (1 - tx) * (1 - ty) + fn (g (c0 + 1) r0) * tx * (1 - ty) +
    fn (g c0 (r0 + 1)) * (1 - tx) * ty + fn (g (c0 + 1) (r0 + 1)) * tx * ty

/-- `IceGrid.sampleFriction(wx, wy, bf, pb)`. -/
def sampleFriction (g : Grid) (wx wy bf pb : ℝ) : ℝ :=
  bilinear g wx wy (fun c => cellFriction c bf pb)

/-- `IceGrid.sampleSlope(wx, wy)` (`sx`, `sy`). -/
def sampleSlope (g : Grid) (wx wy : ℝ) : ℝ × ℝ :=
  (bilinear g wx wy (fun c => c.slopeX), bilinear g wx wy (fun c => c.slopeY))

/-- Column half of `IceGrid.toGrid`, clamped to `[0, GRID_COLS-1]`. -/
def toGridCol (wx : ℝ) : ℤ := max 0 (min (GRID_COLS - 1) ⌊(wx - GRID_X_MIN) / CELL_W⌋)

/-- Row half of `IceGrid.toGrid`, clamped to `[0, GRID_ROWS-1]`. -/
def toGridRow (wy : ℝ) : ℤ := max 0 (min (GRID_ROWS - 1) ⌊(wy - GRID_Y_MIN) / CELL_H⌋)

/-- Neighborhood weight of `applyWear`: 1.0 on the center cell, 0.3 on the
eight neighbors. -/
def wearWeight (dc dr : ℤ) : ℝ := if dc = 0 ∧ dr = 0 then 1 else 0.3

/-- Per-cell effect of `IceGrid.applyWear`. -/
def wearCell (cell : Cell) (w dt : ℝ) (isSweeping : Bool) (wearRate : ℝ) : Cell :=
  let cell1 := { cell with pebbleHeight := max 0 (cell.pebbleHeight - wearRate * w * dt) }
  if isSweeping then
    { cell1 with
        pebbleHeight := max 0 (cell1.pebbleHeight - wearRate * 2.5 * w * dt)
        moisture := min 1 (cell1.moisture + 0.05 * w * dt) }
  else cell1

/-- `IceGrid.applyWear(wx, wy, dt, isSweeping, wearRate)`: wears the 3 x 3
neighborhood of the cell containing `(wx, wy)`, skipping out-of-range cells.
The source updates the nine (distinct) cells sequentially; this simultaneous
functional update is equivalent. -/
def applyWear (g : Grid) (wx wy dt : ℝ) (isSweeping : Bool) (wearRate : ℝ) : Grid :=
  let c := toGridCol wx
  let r := toGridRow wy
  fun cc rr =>
    if inRange cc rr ∧ |cc - c| ≤ 1 ∧ |rr - r| ≤ 1 then
      wearCell (g cc rr) (wearWeight (cc - c) (rr - r)) dt isSweeping wearRate
    else g cc rr

/-- `IceGrid.evaporateMoisture(dt)`. -/
def evaporateMoisture (g : Grid) (dt : ℝ) : Grid :=
  fun c r =>
    if inRange c r then
      let cell := g c r
      if 0 < cell.moisture then { cell with moisture := max 0 (cell.moisture - 0.008 * dt) }
      else cell
    else g c r

/-! ## Ice profiles -/

/-- The `for (c) for (r)` profile loops write each in-range cell once; this
functional map is the equivalent simultaneous form. -/
def mapCells (f : ℤ → ℤ → Cell → Cell) (g : Grid) : Grid :=
  fun c r => if inRange c r then f c r (g c r) else g c r

/-- `yN = (r - GRID_ROWS/2) / (GRID_ROWS/2)`. -/
def yNorm (r : ℤ) : ℝ := ((r : ℝ) - 8) / 8

/-- `xW = GRID_X_MIN + (c+0.5)*CELL_W` (cell-center world x). -/
def cellCenterX (c : ℤ) : ℝ := GRID_X_MIN + ((c : ℝ) + 0.5) * CELL_W

/-- `yW = GRID_Y_MIN + (r+0.5)*CELL_H` (cell-center world y). -/
def cellCenterY (r : ℤ) : ℝ := GRID_Y_MIN + ((r : ℝ) + 0.5) * CELL_H

/-- The closed set of named ice profiles. -/
inductive ProfileKey where
  | championship
  | club
  | arena
  | swingy
  | discovery
deriving DecidableEq

/-- `ICE_PROFILES.club.init`. -/
def clubInit (g : Grid) : Grid :=
  mapCells
    (fun _ r cell =>
      let yN := yNorm r
      { cell with
          slopeY := -yN * 0.0012
          pebbleHeight :=
            if |yN| < 0.3 then cell.pebbleHeight - 0.12 * (1 - |yN| / 0.3)
            else cell.pebbleHeight })
    g

/-- `ICE_PROFILES.arena.init`.  The source sets `temperature = -1.5` first and
then subtracts 2 inside the trough band; the two branch writes compose as
below. -/
def arenaInit (g : Grid) : Grid :=
  mapCells
    (fun c r cell =>
      let yW := cellCenterY r
      let xW := cellCenterX c
      let cell1 := { cell with temperature := (-1.5 : ℝ) }
      let cell2 :=
        if |yW - 25| < 8 then
          { cell1 with
              temperature := cell1.temperature - 2
              pebbleHeight := cell1.pebbleHeight - 0.12
              slopeY := 0.0012 }
        else cell1
      if xW < -500 ∧ 40 < yW then { cell2 with slopeY := -0.003, slopeX := -0.001 }
      else cell2)
    g

/-- `ICE_PROFILES.swingy.init`. -/
def swingyInit (g : Grid) : Grid :=
  mapCells
    (fun _ r cell =>
      { cell with slopeY := -yNorm r * 0.003, pebbleHeight := 1.2 })
    g

/-- The eleven `Math.random()` draws the `discovery` initializer consumes, in
call order, passed explicitly as a seedable source. -/
structure RandDraws where
  dishR : ℝ
  tYR : ℝ
  tWR : ℝ
  tSR : ℝ
  hasTR : ℝ
  hasCrnR : ℝ
  cqxR : ℝ
  cqyR : ℝ
  csR : ℝ
  wOffR : ℝ
  wAmtR : ℝ

/-- `ICE_PROFILES.discovery.init` (game component table). -/
def discoveryInit (d : RandDraws) (g : Grid) : Grid :=
  let dish := (d.dishR - 0.3) * 0.003
  let tY := (d.tYR - 0.5) * 130
  let tW := 5 + d.tWR * 12
  let tS := (d.tSR - 0.5) * 0.003
  let hasT := 0.35 < d.hasTR
  let hasCrn := 0.4 < d.hasCrnR
  let cqx : ℝ := if 0.5 < d.cqxR then 1 else -1
  let cqy : ℝ := if 0.5 < d.cqyR then 1 else -1
  let cs := 0.001 + d.csR * 0.004
  let wOff := (d.wOffR - 0.5) * 30
  let wAmt := 0.05 + d.wAmtR * 0.2
  mapCells
    (fun c r cell =>
      let xW := cellCenterX c
      let yW := cellCenterY r
      let yN := yNorm r
      let cell1 := { cell with slopeY := cell.slopeY + -yN * dish }
      let cell2 :=
        if hasT ∧ |yW - tY| < tW then
          let dd := 1 - |yW - tY| / tW
          { cell1 with
              temperature := cell1.temperature - 1.5 * dd
              pebbleHeight := cell1.pebbleHeight - 0.08 * dd
              slopeY := cell1.slopeY + tS * dd }
        else cell1
      let cell3 :=
        if hasCrn ∧ (if 0 < cqx then xW < -480 else -200 < xW) ∧
            (if 0 < cqy then 30 < yW else yW < -30) then
          { cell2 with
              slopeY := cell2.slopeY + cqy * -cs
              slopeX := cell2.slopeX + cqx * -cs * 0.3 }
        else cell2
      let cell4 :=
        if |yW - wOff| < 15 then
          { cell3 with pebbleHeight := cell3.pebbleHeight - wAmt * (1 - |yW - wOff| / 15) }
        else cell3
      { cell4 with pebbleHeight := max 0 (min 1.3 cell4.pebbleHeight) })
    g

/-- The five-profile `ICE_PROFILES` table of the game component. -/
def initProfile (p : ProfileKey) (d : RandDraws) (g : Grid) : Grid :=
  match p with
  | .championship => g
  | .club => clubInit g
  | .arena => arenaInit g
  | .swingy => swingyInit g
  | .discovery => discoveryInit d g

/-- The four-profile `ICE_PROFILES` table of the headless simulator
(`physics-sim.js` has no `discovery` entry, so that key finds no initializer
and leaves the grid fresh). -/
def initProfileSim (p : ProfileKey) (g : Grid) : Grid :=
  match p with
  | .championship => g
  | .club => clubInit g
  | .arena => arenaInit g
  | .swingy => swingyInit g
  | .discovery => g

/-! ## Force model velocity factors -/

/-- `vFactor` of the headless simulator and of the `part_002` game snapshot:
`Math.max(0.3, Math.sqrt(v / 2))`. -/
def vFactorSim (v : ℝ) : ℝ := max 0.3 (Real.sqrt (v / 2))

/-- Spin-curl term of the headless simulator:
`rock.spin * rock.paperTurns * friction * T.curlCoeff * vFactor`. -/
def spinCurlSim (spin paperTurns friction curlCoeff v : ℝ) : ℝ :=
  spin * paperTurns * friction * curlCoeff * vFactorSim v

/-- `vFactor` of the game component `App.jsx`: `v / (v * v + 0.5)`. -/
def vFactorApp (v : ℝ) : ℝ := v / (v * v + 0.5)

/-- Spin-curl term of `App.jsx`:
`-rock.spin * rock.paperTurns * friction * T.curlCoeff * vFactor`. -/
def spinCurlApp (spin paperTurns friction curlCoeff v : ℝ) : ℝ :=
  -spin * paperTurns * friction * curlCoeff * vFactorApp v

/-! ## Headless delivery simulation (`physics-sim.js` `simulate`) -/

/-- The single delivered rock of the headless simulator. -/
structure SimRock where
  x : ℝ
  y : ℝ
  angle : ℝ
  velocity : ℝ
  spin : ℝ
  paperTurns : ℝ
  inPlay : Bool
  hasContacted : Bool

/-- One per-tick trace record (pushed before forces are applied). -/
structure TraceEntry where
  tick : ℕ
  x : ℝ
  y : ℝ
  velocity : ℝ
  angle : ℝ
  spinCurl : ℝ
  gradDrift : ℝ
  slopeY : ℝ
  friction : ℝ
  vFactor : ℝ
  fL : ℝ
  fR : ℝ

/-- `removeReason` values of the headless simulator. -/
inductive RemoveReason where
  | backLineCross
  | sideboard
  | hogLineShort
deriving DecidableEq

/-- Loop state of `simulate`'s `while` loop. -/
structure SimState where
  rock : SimRock
  grid : Grid
  trace : List TraceEntry
  tick : ℕ
  removed : Bool
  removeReason : Option RemoveReason

/-- One iteration of the `while` body of `simulate`. -/
def tickOnce (T : Tune) (sweep : Bool) (dt : ℝ) (s : SimState) : SimState :=
  let g := evaporateMoisture s.grid dt
  let rock := s.rock
  let friction := sampleFriction g rock.x rock.y T.baseFriction T.pebbleFrictionBonus
  let slope := sampleSlope g rock.x rock.y
  let v1 := max 0 (rock.velocity - friction * T.frictionDecel * dt)
  let v2 := if sweep ∧ 0.3 < v1 then v1 + dt * T.sweepBoost else v1
  let vF := vFactorSim v2
  let spinCurl := spinCurlSim rock.spin rock.paperTurns friction T.curlCoeff v2
  let perpX := -Real.sin rock.angle * CURL_SAMPLE_OFFSET
  let perpY := Real.cos rock.angle * CURL_SAMPLE_OFFSET
  let fL := sampleFriction g (rock.x + perpX) (rock.y + perpY) T.baseFriction T.pebbleFrictionBonus
  let fR := sampleFriction g (rock.x - perpX) (rock.y - perpY) T.baseFriction T.pebbleFrictionBonus
  let gradDrift := (fL - fR) * T.gradientCoeff * vF
  let slopeScale := min 1 (v2 * 2)
  let slopeYF := slope.2 * T.slopeGravity * slopeScale
  let slopeXF := slope.1 * T.slopeGravity * slopeScale
  let entry : TraceEntry :=
    ⟨s.tick, rock.x, rock.y, v2, rock.angle, spinCurl, gradDrift, slopeYF, friction, vF, fL, fR⟩
  let y1 := rock.y + (spinCurl + gradDrift + slopeYF) * dt
  let v3 := max 0 (v2 + slopeXF * dt * 0.5)
  let x1 := rock.x + Real.cos rock.angle * v3 * dt * T.speedScale
  let y2 := y1 + Real.sin rock.angle * v3 * dt * T.speedScale
  let g2 := applyWear g x1 y2 dt sweep T.wearRate
  let rmBack := x1 - rockRadius < backLine
  let rmSide := sheetHalfWidth < |y2| + rockRadius
  let rmHog := v3 ≤ 0.02 ∧ hogLine - rockRadius < x1 ∧ rock.hasContacted = false
  let anyRm := rmBack ∨ rmSide ∨ rmHog
  { rock :=
      { rock with
          x := x1, y := y2, velocity := v3
          inPlay := if anyRm then false else rock.inPlay }
    grid := g2
    trace := s.trace ++ [entry]
    tick := s.tick + 1
    removed := if anyRm then true else s.removed
    removeReason :=
      if rmHog then some .hogLineShort
      else if rmSide then some .sideboard
      else if rmBack then some .backLineCross
      else s.removeReason }

/-- Fuel-indexed unfolding of the `while` loop; `simulate` runs it with fuel
10000, which the loop condition `tick < 10000` makes exact. -/
def simLoop (T : Tune) (sweep : Bool) (dt : ℝ) : ℕ → SimState → SimState
  | 0, s => s
  | fuel + 1, s =>
      if s.rock.inPlay = true ∧ 0.02 < s.rock.velocity ∧ s.tick < 10000 then
        simLoop T sweep dt fuel (tickOnce T sweep dt s)
      else s

/-- Inputs of `simulate(opts)`.  `tune` is the merge of `DEFAULTS` with the
caller's overrides; `dt` is the explicit physics timestep parameter (the
simulator never reads a wall clock, and none of its code paths consume
`Math.random`, so no RNG argument exists to thread through). -/
structure SimOpts where
  name : String
  aim : ℝ
  power : ℝ
  spin : ℝ
  profile : ProfileKey
  paperTurns : ℝ
  sweep : Bool
  tune : Tune
  dt : ℝ

/-- Initial loop state of `simulate`. -/
def simInit (o : SimOpts) : SimState :=
  { rock :=
      { x := hackPos
        y := o.aim
        angle := Real.pi
        velocity := 1.8 + 2.6 * Real.sqrt (o.power / 100)
        spin := o.spin
        paperTurns := o.paperTurns
        inPlay := true
        hasContacted := false }
    grid := initProfileSim o.profile freshGrid
    trace := []
    tick := 0
    removed := false
    removeReason := none }

/-- Final loop state of `simulate` (after the tick loop ends). -/
def simFinal (o : SimOpts) : SimState :=
  simLoop o.tune o.sweep o.dt 10000 (simInit o)

/-- `+x.toFixed(2)` modelled as decimal rounding to two places. -/
def toFixed2 (x : ℝ) : ℝ := (⌊x * 100 + 0.5⌋ : ℝ) / 100

/-- `+x.toFixed(1)` modelled as decimal rounding to one place. -/
def toFixed1 (x : ℝ) : ℝ := (⌊x * 10 + 0.5⌋ : ℝ) / 10

/-- The `summary` record of `simulate`.  `finalX`/`finalY`/`distToButton` are
`none` when the trace is empty (the source then reads `undefined`/`Infinity`). -/
structure Summary where
  name : String
  aim : ℝ
  power : ℝ
  spin : ℝ
  profile : ProfileKey
  paperTurns : ℝ
  sweep : Bool
  tune : Tune
  finalX : Option ℝ
  finalY : Option ℝ
  totalCurl : ℝ
  distToButton : Option ℝ
  inHouse : Bool
  removed : Bool
  removeReason : Option RemoveReason
  ticks : ℕ
  duration : ℝ

/-- The result `{ trace, summary }` of `simulate`. -/
structure SimResult where
  trace : List TraceEntry
  summary : Summary

/-- `simulate(opts)`: headless delivery of a single rock. -/
def simulate (o : SimOpts) : SimResult :=
  let s := simFinal o
  let last := s.trace.getLast?
  let distToButton :=
    last.map fun l =>
      Real.sqrt ((l.x - houseCenterX) ^ 2 + (l.y - houseCenterY) ^ 2)
  let inHouse :=
    match distToButton with
    | some d => decide (d ≤ houseRadius3 + rockRadius)
    | none => false
  let totalCurl :=
    match last with
    | some l => l.y - o.aim
    | none => 0
  { trace := s.trace
    summary :=
      { name := o.name
        aim := o.aim
        power := o.power
        spin := o.spin
        profile := o.profile
        paperTurns := o.paperTurns
        sweep := o.sweep
        tune := o.tune
        finalX := last.map TraceEntry.x
        finalY := last.map TraceEntry.y
        totalCurl := toFixed2 totalCurl
        distToButton := distToButton.map toFixed1
        inHouse := inHouse
        removed := s.removed
        removeReason := s.removeReason
        ticks := s.tick
        duration := toFixed2 ((s.tick : ℝ) * o.dt) } }

/-! ## Game rocks and the collision resolver (`App.jsx`) -/

/-- A game rock (`createRock` fields used by the physics core). -/
structure Rock where
  id : ℕ
  team : ℕ
  x : ℝ
  y : ℝ
  angle : ℝ
  velocity : ℝ
  spin : ℝ
  paperTurns : ℝ
  inPlay : Bool
  active : Bool
  stopped : Bool
  hasContacted : Bool

instance : Inhabited Rock := ⟨⟨0, 0, 0, 0, 0, 0, 1, 1, false, false, false, false⟩⟩

/-- `Math.atan2(y, x)`. -/
def atan2 (y x : ℝ) : ℝ := Complex.arg ⟨x, y⟩

/-- Center distance of two rocks (`Math.sqrt(dx*dx + dy*dy)`). -/
def rockDist (a b : Rock) : ℝ :=
  Real.sqrt ((a.x - b.x) * (a.x - b.x) + (a.y - b.y) * (a.y - b.y))

/-- Contact normal x-component `nx = (b.x - a.x) / dist`. -/
def normalX (a b : Rock) : ℝ := (b.x - a.x) / rockDist a b

/-- Contact normal y-component `ny = (b.y - a.y) / dist`. -/
def normalY (a b : Rock) : ℝ := (b.y - a.y) / rockDist a b

/-- Velocity-vector x-component of a rock (`Math.cos(angle) * velocity`). -/
def velX (r : Rock) : ℝ := Real.cos r.angle * r.velocity

/-- Velocity-vector y-component of a rock (`Math.sin(angle) * velocity`). -/
def velY (r : Rock) : ℝ := Real.sin r.angle * r.velocity

/-- Relative velocity of `a` toward `b` along the contact normal (`rv`). -/
def relVel (a b : Rock) : ℝ :=
  (velX a - velX b) * normalX a b + (velY a - velY b) * normalY a b

/-- The exchanged impulse `imp = rv * RESTITUTION`. -/
def impulse (a b : Rock) : ℝ := relVel a b * RESTITUTION

/-- Post-impulse velocity vector of `a`: `(avx - imp*nx, avy - imp*ny)`. -/
def postVelA (a b : Rock) : ℝ × ℝ :=
  (velX a - impulse a b * normalX a b, velY a - impulse a b * normalY a b)

/-- Post-impulse velocity vector of `b`: `(bvx + imp*nx, bvy + imp*ny)`. -/
def postVelB (a b : Rock) : ℝ × ℝ :=
  (velX b + impulse a b * normalX a b, velY b + impulse a b * normalY a b)

/-- Post-impulse speed of `a` (`Math.sqrt(nax*nax + nay*nay)`). -/
def postSpeedA (a b : Rock) : ℝ :=
  Real.sqrt ((postVelA a b).1 * (postVelA a b).1 + (postVelA a b).2 * (postVelA a b).2)

/-- Post-impulse speed of `b`. -/
def postSpeedB (a b : Rock) : ℝ :=
  Real.sqrt ((postVelB a b).1 * (postVelB a b).1 + (postVelB a b).2 * (postVelB a b).2)

/-- Body of `resolveCollisions` for one colliding ordered pair: impulse
exchange when closing (`rv > 0`), then unconditional symmetric overlap
separation and flag updates. -/
def collidePair (a b : Rock) : Rock × Rock :=
  let dx := a.x - b.x
  let dy := a.y - b.y
  let dist := rockDist a b
  let p :=
    if 0 < relVel a b then
      ({ a with
           velocity := postSpeedA a b
           angle :=
             if 0.01 < postSpeedA a b then atan2 (postVelA a b).2 (postVelA a b).1
             else a.angle },
       { b with
           velocity := postSpeedB a b
           angle :=
             if 0.01 < postSpeedB a b then atan2 (postVelB a b).2 (postVelB a b).1
             else b.angle })
    else (a, b)
  let ol := rockRadius * 2 - dist
  ({ p.1 with
       x := p.1.x + dx / dist * ol * 0.5
       y := p.1.y + dy / dist * ol * 0.5
       hasContacted := true },
   { p.2 with
       x := p.2.x - dx / dist * ol * 0.5
       y := p.2.y - dy / dist * ol * 0.5
       inPlay := true
       active := true
       stopped := false
       hasContacted := true })

/-- One inner-loop iteration of `resolveCollisions` at ordered pair `(i, j)`
(the `i === j` skip, the `b.inPlay` guard and the overlap test). -/
def collideStep (rocks : List Rock) (i j : ℕ) : List Rock :=
  if i = j then rocks
  else
    let a := rocks.getD i default
    let b := rocks.getD j default
    if b.inPlay = true then
      let dist := rockDist a b
      if dist < rockRadius * 2 ∧ 0 < dist then
        let p := collidePair a b
        (rocks.set i p.1).set j p.2
      else rocks
    else rocks

/-- One outer-loop iteration of `resolveCollisions` at index `i`: the source
reads `a = rocks[i]` and checks `a.inPlay`/`a.velocity` once, before the inner
loop over `j`. -/
def outerStep (rocks : List Rock) (i : ℕ) : List Rock :=
  let a := rocks.getD i default
  if a.inPlay = true ∧ 0.05 < a.velocity then
    (List.range rocks.length).foldl (fun rs j => collideStep rs i j) rocks
  else rocks

/-- `resolveCollisions(rocks)`: one full pass over all ordered pairs in
ascending index order. -/
def resolveCollisions (rocks : List Rock) : List Rock :=
  (List.range rocks.length).foldl outerStep rocks

/-! ## Game physics tick (`App.jsx` `physicsTick`) -/

/-- `removeRock(rock)`: clears `inPlay`/`active`, zeroes velocity and parks
the rock at `x = 800`, outside the active area. -/
def removeRock (r : Rock) : Rock :=
  { r with inPlay := false, active := false, velocity := 0, x := 800 }

/-- Removal condition (a): the leading edge crossed the back line. -/
def backLineViolation (r : Rock) : Prop := r.x - rockRadius < backLine

instance : DecidablePred backLineViolation := fun r => by
  unfold backLineViolation; infer_instance

/-- Removal condition (b): the rock touched a sideboard. -/
def sideboardViolation (r : Rock) : Prop := sheetHalfWidth < |r.y| + rockRadius

instance : DecidablePred sideboardViolation := fun r => by
  unfold sideboardViolation; infer_instance

/-- Removal condition (c): stopped short of the hog line without a contact. -/
def hogLineViolation (r : Rock) : Prop :=
  r.velocity ≤ 0.02 ∧ hogLine - rockRadius < r.x ∧ r.hasContacted = false

instance : DecidablePred hogLineViolation := fun r => by
  unfold hogLineViolation; infer_instance

/-- The boundary checks at the end of the per-rock tick body; each removal in
the source is followed by `continue`, so the first matching rule applies. -/
def boundaryCheck (r : Rock) : Rock :=
  if backLineViolation r then removeRock r
  else if sideboardViolation r then removeRock r
  else if hogLineViolation r then removeRock r
  else r

/-- The force/integration part of the per-rock tick body of `physicsTick`
(everything between the skip guard and the boundary checks), also producing
the worn grid. -/
def moveRock (T : Tune) (dt : ℝ) (isSweeping : Bool) (g : Grid) (rock : Rock) :
    Rock × Grid :=
  let friction := sampleFriction g rock.x rock.y T.baseFriction T.pebbleFrictionBonus
  let slope := sampleSlope g rock.x rock.y
  let v1 := max 0 (rock.velocity - friction * T.frictionDecel * dt)
  let v2 := if isSweeping ∧ 0.3 < v1 then v1 + dt * T.sweepBoost else v1
  let spinCurl := spinCurlApp rock.spin rock.paperTurns friction T.curlCoeff v2
  let perpX := -Real.sin rock.angle * CURL_SAMPLE_OFFSET
  let perpY := Real.cos rock.angle * CURL_SAMPLE_OFFSET
  let fL := sampleFriction g (rock.x + perpX) (rock.y + perpY) T.baseFriction T.pebbleFrictionBonus
  let fR := sampleFriction g (rock.x - perpX) (rock.y - perpY) T.baseFriction T.pebbleFrictionBonus
  let gradDrift := (fL - fR) * T.gradientCoeff * vFactorApp v2
  let slopeScale := min 1 (v2 * 2)
  let slopeYF := slope.2 * T.slopeGravity * slopeScale
  let slopeXF := slope.1 * T.slopeGravity * slopeScale
  let y1 := rock.y + (spinCurl + gradDrift + slopeYF) * dt
  let v3 := max 0 (v2 + slopeXF * dt * 0.5)
  let x1 := rock.x + Real.cos rock.angle * v3 * dt * T.speedScale
  let y2 := y1 + Real.sin rock.angle * v3 * dt * T.speedScale
  let g2 := applyWear g x1 y2 dt isSweeping T.wearRate
  ({ rock with x := x1, y := y2, velocity := v3, stopped := false }, g2)

/-- The whole per-rock body of `physicsTick`, including the skip guard for
rocks that are out of play or at rest. -/
def physicsTickRock (T : Tune) (dt : ℝ) (isSweeping : Bool) (g : Grid) (rock : Rock) :
    Rock × Grid :=
  if rock.inPlay = false then (rock, g)
  else if rock.velocity ≤ 0.02 then ({ rock with stopped := true }, g)
  else
    let m := moveRock T dt isSweeping g rock
    (boundaryCheck m.1, m.2)

/-- The `for (const rock of rocks)` loop of `physicsTick`: rocks processed in
order with the grid threaded through, accumulating `anyMoving`. -/
def tickRocks (T : Tune) (dt : ℝ) (sweepId : Option ℕ) :
    List Rock → Grid → List Rock × Grid × Bool
  | [], g => ([], g, false)
  | r :: rs, g =>
      let moved := r.inPlay = true ∧ 0.02 < r.velocity
      let p := physicsTickRock T dt (sweepId = some r.id) g r
      let rest := tickRocks T dt sweepId rs p.2
      (p.1 :: rest.1, rest.2.1, decide moved || rest.2.2)

/-- `physicsTick(dt)`: moisture evaporation, per-rock force/boundary pass,
then one collision-resolver pass; returns the roster, grid and `anyMoving`. -/
def physicsTick (T : Tune) (dt : ℝ) (sweepId : Option ℕ) (rocks : List Rock) (g : Grid) :
    List Rock × Grid × Bool :=
  let g1 := evaporateMoisture g dt
  let p := tickRocks T dt sweepId rocks g1
  (resolveCollisions p.1, p.2.1, p.2.2)

/-! ## End scoring (`App.jsx` `scoreEnd`) -/

/-- Distance from a rock to the button. -/
def houseDist (r : Rock) : ℝ :=
  Real.sqrt ((r.x - houseCenterX) ^ 2 + (r.y - houseCenterY) ^ 2)

/-- The distances to the button of one team's rocks that are still in play and
within `houseRadii[3] + ROCK_RADIUS` of the button (the `dists[team]` list). -/
def houseDists (team : ℕ) (rocks : List Rock) : List ℝ :=
  ((rocks.filter fun r => r.inPlay).filter fun r =>
      decide (r.team = team) && decide (houseDist r ≤ houseRadius3 + rockRadius)).map
    houseDist

/-- The head of a team's ascending-sorted distance list (`dists[t][0]`); for a
nonempty list this is the team's minimum distance. -/
def teamMin (l : List ℝ) : ℝ := (l.insertionSort (· ≤ ·)).headD 0

/-- `scoreEnd()`: returns `(scoringTeam, pts)` with `scoringTeam = -1` when no
team scores.  The source sorts `dists[t]` in place and then branches on
emptiness and on the sorted heads. -/
def scoreEnd (rocks : List Rock) : ℤ × ℕ :=
  let d0 := (houseDists 0 rocks).insertionSort (· ≤ ·)
  let d1 := (houseDists 1 rocks).insertionSort (· ≤ ·)
  if d0.length = 0 ∧ d1.length = 0 then (-1, 0)
  else if d1.length = 0 then (0, d0.length)
  else if d0.length = 0 then (1, d1.length)
  else if d0.headD 0 < d1.headD 0 then
    (0, (d0.filter fun d => decide (d < d1.headD 0)).length)
  else (1, (d1.filter fun d => decide (d < d0.headD 0)).length)

/-! ## Statement-level predicates and concrete instances -/

/-- `val` lies between the minimum and maximum of the four per-cell values
that `_bilinear` samples at `(wx, wy)`. -/
def bilinearBounded (g : Grid) (wx wy : ℝ) (fn : Cell → ℝ) (val : ℝ) : Prop :=
  let v00 := fn (g (baseCol wx) (baseRow wy))
  let v10 := fn (g (baseCol wx + 1) (baseRow wy))
  let v01 := fn (g (baseCol wx) (baseRow wy + 1))
  let v11 := fn (g (baseCol wx + 1) (baseRow wy + 1))
  min (min v00 v10) (min v01 v11) ≤ val ∧ val ≤ max (max v00 v10) (max v01 v11)

/-- The per-cell state invariant: `pebbleHeight ≥ 0`, `0 ≤ moisture ≤ 1`. -/
def cellInv (cell : Cell) : Prop :=
  0 ≤ cell.pebbleHeight ∧ 0 ≤ cell.moisture ∧ cell.moisture ≤ 1

/-- The invariant for every cell of the grid. -/
def gridInv (g : Grid) : Prop := ∀ c r, cellInv (g c r)

/-- Kinetic energy of a rock (unit mass): `v² / 2`. -/
def rockKE (r : Rock) : ℝ := r.velocity ^ 2 / 2

/-- Hypotheses of the closing-collision claim for the ordered pair `(a, b)`:
both in play, `a` above the outer-loop speed threshold, overlapping centers at
positive distance, and closing along the contact normal. -/
def closingPairHyp (a b : Rock) : Prop :=
  a.inPlay = true ∧ b.inPlay = true ∧ 0.05 < a.velocity ∧
    0 < rockDist a b ∧ rockDist a b < rockRadius * 2 ∧ 0 < relVel a b

/-- Hypotheses of the non-closing-graze claim: as `closingPairHyp` but with
non-positive relative normal velocity. -/
def grazingPairHyp (a b : Rock) : Prop :=
  a.inPlay = true ∧ b.inPlay = true ∧ 0.05 < a.velocity ∧
    0 < rockDist a b ∧ rockDist a b < rockRadius * 2 ∧ relVel a b ≤ 0

/-- Concrete moving rock for collision instances: at the origin, heading
`angle = 0`, speed 1. -/
def wRockA : Rock :=
  ⟨0, 0, 0, 0, 0, 1, 1, 1, true, true, false, false⟩

/-- Concrete stationary rock overlapping `wRockA`: 6 units away on the x-axis. -/
def wRockB : Rock :=
  ⟨1, 1, 6, 0, 0, 0, 1, 1, true, false, true, false⟩

/-- Concrete rock moving away from `wRockB` (heading `π`, so receding). -/
def wRockC : Rock :=
  ⟨0, 0, 0, 0, Real.pi, 1, 1, 1, true, true, false, false⟩

/-- Concrete in-play rock resting on the button. -/
def wScoreRock : Rock :=
  ⟨0, 0, houseCenterX, houseCenterY, 0, 0, 1, 1, true, false, true, false⟩

/-- Concrete moving rock about to be removed at a sideboard: `y = 80`, so its
edge is past the half-width even before any motion when `dt = 0`. -/
def wTickRock : Rock :=
  ⟨0, 0, -500, 80, 0, 1, 1, 1, true, true, false, false⟩

/-- Concrete pseudorandom draws for the `discovery` initializer. -/
def wDraws : RandDraws := ⟨0.5, 0.5, 0.5, 0.5, 0.5, 0.5, 0.5, 0.5, 0.5, 0.5, 0.5⟩

/-- Concrete delivery options. -/
def wOpts1 : SimOpts :=
  ⟨"a", 0, 45, 1, .championship, 1, false, DEFAULTS_SIM, 0.016⟩

/-- The same physical inputs as `wOpts1` under a different run name. -/
def wOpts2 : SimOpts :=
  ⟨"b", 0, 45, 1, .championship, 1, false, DEFAULTS_SIM, 0.016⟩

end

/-! # Theorems -/

theorem wearWeight_nonneg (dc dr : ℤ) : 0 ≤ wearWeight dc dr := by
  unfold wearWeight; split <;> norm_num

theorem baseCol_nonneg (wx : ℝ) : 0 ≤ baseCol wx := le_max_left 0 _

theorem baseCol_le (wx : ℝ) : baseCol wx ≤ GRID_COLS - 2 :=
  max_le (by unfold GRID_COLS; norm_num) (min_le_left _ _)

theorem baseRow_nonneg (wy : ℝ) : 0 ≤ baseRow wy := le_max_left 0 _

theorem baseRow_le (wy : ℝ) : baseRow wy ≤ GRID_ROWS - 2 :=
  max_le (by unfold GRID_ROWS; norm_num) (min_le_left _ _)

theorem weightX_nonneg (wx : ℝ) : 0 ≤ weightX wx := le_max_left 0 _

theorem weightX_le_one (wx : ℝ) : weightX wx ≤ 1 :=
  max_le zero_le_one (min_le_left _ _)

theorem weightY_nonneg (wy : ℝ) : 0 ≤ weightY wy := le_max_left 0 _

theorem weightY_le_one (wy : ℝ) : weightY wy ≤ 1 :=
  max_le zero_le_one (min_le_left _ _)

theorem bilinear_bounded (g : Grid) (wx wy : ℝ) (fn : Cell → ℝ) :
    bilinearBounded g wx wy fn (bilinear g wx wy fn) := by
  have htx0 := weightX_nonneg wx
  have htx1 := weightX_le_one wx
  have hty0 := weightY_nonneg wy
  have hty1 := weightY_le_one wy
  unfold bilinearBounded bilinear
  dsimp only
  set v00 := fn (g (baseCol wx) (baseRow wy)) with hv00
  set v10 := fn (g (baseCol wx + 1) (baseRow wy)) with hv10
  set v01 := fn (g (baseCol wx) (baseRow wy + 1)) with hv01
  set v11 := fn (g (baseCol wx + 1) (baseRow wy + 1)) with hv11
  set tx := weightX wx with htx
  set ty := weightY wy with hty
  have h1x : (0 : ℝ) ≤ 1 - tx := by linarith
  have h1y : (0 : ℝ) ≤ 1 - ty := by linarith
  have m00 : min (min v00 v10) (min v01 v11) ≤ v00 :=
    le_trans (min_le_left _ _) (min_le_left _ _)
  have m10 : min (min v00 v10) (min v01 v11) ≤ v10 :=
    le_trans (min_le_left _ _) (min_le_right _ _)
  have m01 : min (min v00 v10) (min v01 v11) ≤ v01 :=
    le_trans (min_le_right _ _) (min_le_left _ _)
  have m11 : min (min v00 v10) (min v01 v11) ≤ v11 :=
    le_trans (min_le_right _ _) (min_le_right _ _)
  have M00 : v00 ≤ max (max v00 v10) (max v01 v11) :=
    le_trans (le_max_left _ _) (le_max_left _ _)
  have M10 : v10 ≤ max (max v00 v10) (max v01 v11) :=
    le_trans (le_max_right _ _) (le_max_left _ _)
  have M01 : v01 ≤ max (max v00 v10) (max v01 v11) :=
    le_trans (le_max_left _ _) (le_max_right _ _)
  have M11 : v11 ≤ max (max v00 v10) (max v01 v11) :=
    le_trans (le_max_right _ _) (le_max_right _ _)
  constructor
  · nlinarith [mul_nonneg (mul_nonneg (sub_nonneg.mpr m00) h1x) h1y,
      mul_nonneg (mul_nonneg (sub_nonneg.mpr m10) htx0) h1y,
      mul_nonneg (mul_nonneg (sub_nonneg.mpr m01) h1x) hty0,
      mul_nonneg (mul_nonneg (sub_nonneg.mpr m11) htx0) hty0]
  · nlinarith [mul_nonneg (mul_nonneg (sub_nonneg.mpr M00) h1x) h1y,
      mul_nonneg (mul_nonneg (sub_nonneg.mpr M10) htx0) h1y,
      mul_nonneg (mul_nonneg (sub_nonneg.mpr M01) h1x) hty0,
      mul_nonneg (mul_nonneg (sub_nonneg.mpr M11) htx0) hty0]

/-- C9: for every world coordinate `(wx, wy)` — on or off the sheet —
`sampleFriction` and `sampleSlope` clamp their base cell indices to the valid
grid range and their interpolation weights to `[0, 1]`, and each sampled value
is a convex combination of the four in-range cells it reads, hence lies
between the minimum and maximum of those per-cell values; both operations are
total, so no query fails or extrapolates. -/
theorem c9_sampling_clamped_convex (g : Grid) (wx wy bf pb : ℝ) :
    (0 ≤ baseCol wx ∧ baseCol wx ≤ GRID_COLS - 2 ∧
      0 ≤ baseRow wy ∧ baseRow wy ≤ GRID_ROWS - 2) ∧
    (0 ≤ weightX wx ∧ weightX wx ≤ 1 ∧ 0 ≤ weightY wy ∧ weightY wy ≤ 1) ∧
    bilinearBounded g wx wy (fun c => cellFriction c bf pb) (sampleFriction g wx wy bf pb) ∧
    bilinearBounded g wx wy (fun c => c.slopeX) (sampleSlope g wx wy).1 ∧
    bilinearBounded g wx wy (fun c => c.slopeY) (sampleSlope g wx wy).2 :=
  ⟨⟨baseCol_nonneg wx, baseCol_le wx, baseRow_nonneg wy, baseRow_le wy⟩,
    ⟨weightX_nonneg wx, weightX_le_one wx, weightY_nonneg wy, weightY_le_one wy⟩,
    bilinear_bounded g wx wy _, bilinear_bounded g wx wy _, bilinear_bounded g wx wy _⟩

theorem cellInv_createCell : cellInv createCell := by
  unfold cellInv createCell; norm_num

theorem gridInv_fresh : gridInv freshGrid := fun _ _ => cellInv_createCell

theorem cellInv_wearCell (cell : Cell) (w dt : ℝ) (sw : Bool) (rate : ℝ)
    (hw : 0 ≤ w) (hdt : 0 ≤ dt) (h : cellInv cell) :
    cellInv (wearCell cell w dt sw rate) := by
  obtain ⟨h1, h2, h3⟩ := h
  unfold wearCell cellInv
  dsimp only
  split
  · exact ⟨le_max_left _ _, le_min (by norm_num) (by nlinarith), min_le_left _ _⟩
  · exact ⟨le_max_left _ _, h2, h3⟩

theorem gridInv_applyWear (g : Grid) (wx wy dt : ℝ) (sw : Bool) (rate : ℝ)
    (hdt : 0 ≤ dt) (hg : gridInv g) : gridInv (applyWear g wx wy dt sw rate) := by
  intro c r
  simp only [applyWear]
  split
  · exact cellInv_wearCell _ _ _ _ _ (wearWeight_nonneg _ _) hdt (hg c r)
  · exact hg c r

theorem gridInv_evaporate (g : Grid) (dt : ℝ) (hdt : 0 ≤ dt) (hg : gridInv g) :
    gridInv (evaporateMoisture g dt) := by
  intro c r
  obtain ⟨h1, h2, h3⟩ := hg c r
  unfold evaporateMoisture
  dsimp only
  split
  · split
    · exact ⟨h1, le_max_left _ _, max_le (by norm_num) (by nlinarith)⟩
    · exact ⟨h1, h2, h3⟩
  · exact ⟨h1, h2, h3⟩

theorem gridInv_initProfile (p : ProfileKey) (d : RandDraws) :
    gridInv (initProfile p d freshGrid) := by
  cases p
  case championship => exact gridInv_fresh
  case club =>
    intro c r
    unfold initProfile clubInit mapCells freshGrid createCell cellInv yNorm
    dsimp only
    have h := abs_nonneg (((r : ℝ) - 8) / 8)
    split_ifs with h1 h2
    · exact ⟨by dsimp only; norm_num; nlinarith, by norm_num, by norm_num⟩
    · exact ⟨by norm_num, by norm_num, by norm_num⟩
    · exact ⟨by norm_num, by norm_num, by norm_num⟩
  case arena =>
    intro c r
    unfold initProfile arenaInit mapCells freshGrid createCell cellInv
    dsimp only
    split_ifs <;> norm_num
  case swingy =>
    intro c r
    unfold initProfile swingyInit mapCells freshGrid createCell cellInv
    dsimp only
    split_ifs <;> norm_num
  case discovery =>
    intro c r
    unfold initProfile discoveryInit mapCells freshGrid createCell cellInv
    dsimp only
    split_ifs <;>
      first
      | exact ⟨le_max_left _ _, by norm_num, by norm_num⟩
      | exact ⟨by norm_num, by norm_num, by norm_num⟩

/-- C8 counterexample: `applyWear` called while sweeping with the (unvalidated)
argument `dt = -1` drives the wetted center cell's moisture to `-1/20`,
breaking `0 ≤ moisture`; so the invariant is not preserved under arbitrary
`applyWear` arguments. -/
theorem c8_counterexample :
    ((applyWear freshGrid GRID_X_MIN 0 (-1) true 0) 0 8).moisture = -1 / 20 ∧
      ¬ gridInv (applyWear freshGrid GRID_X_MIN 0 (-1) true 0) := by
  have hcol : toGridCol GRID_X_MIN = 0 := by
    unfold toGridCol GRID_COLS
    norm_num
  have h8 : ((0 : ℝ) - GRID_Y_MIN) / CELL_H = ((8 : ℤ) : ℝ) := by
    unfold CELL_H GRID_Y_MAX GRID_Y_MIN sheetHalfWidth
    norm_num
  have hrow : toGridRow 0 = 8 := by
    unfold toGridRow GRID_ROWS
    rw [h8, Int.floor_intCast]
    decide
  have hmain : ((applyWear freshGrid GRID_X_MIN 0 (-1) true 0) 0 8).moisture = -1 / 20 := by
    simp only [applyWear]
    rw [hcol, hrow]
    rw [if_pos (by decide)]
    unfold wearCell wearWeight freshGrid createCell
    norm_num [min_def]
  refine ⟨hmain, fun h => ?_⟩
  have h2 := (h 0 8).2.1
  rw [hmain] at h2
  norm_num at h2

/-- C8 (amended): every named profile initializer applied to the fresh grid,
and `applyWear` (any position, any `wearRate`, sweeping or not) and
`evaporateMoisture` with a nonnegative time step `dt`, preserve the cell
invariant `pebbleHeight ≥ 0 ∧ 0 ≤ moisture ≤ 1` for every cell.  (The
original claim's "any arguments" fails only for negative `dt`, which the
source never validates — see the counterexample.) -/
theorem c8_amended_invariant :
    (∀ (p : ProfileKey) (d : RandDraws), gridInv (initProfile p d freshGrid)) ∧
    (∀ (g : Grid) (wx wy dt : ℝ) (sw : Bool) (rate : ℝ), 0 ≤ dt → gridInv g →
      gridInv (applyWear g wx wy dt sw rate)) ∧
    (∀ (g : Grid) (dt : ℝ), 0 ≤ dt → gridInv g → gridInv (evaporateMoisture g dt)) :=
  ⟨gridInv_initProfile,
    fun g wx wy dt sw rate hdt hg => gridInv_applyWear g wx wy dt sw rate hdt hg,
    fun g dt hdt hg => gridInv_evaporate g dt hdt hg⟩

/-- Witness for C8 at concrete inputs: one wear application (sweeping,
`dt = 1`), one evaporation step and one profile initialization, all preserving
the invariant from the fresh grid. -/
theorem c8_amended_invariant_w :
    gridInv (applyWear freshGrid 0 0 1 true 0.0015) ∧
      gridInv (evaporateMoisture freshGrid 1) ∧
      gridInv (initProfile .club wDraws freshGrid) :=
  ⟨c8_amended_invariant.2.1 freshGrid 0 0 1 true 0.0015 (by norm_num) gridInv_fresh,
    c8_amended_invariant.2.2 freshGrid 1 (by norm_num) gridInv_fresh,
    c8_amended_invariant.1 .club wDraws⟩

/-- C1: evaluation of the code at the failing input `v = 0`.  The headless
simulator's velocity factor `max(0.3, √(v/2))` equals `0.3` (not `0`) at rest,
so with spin `1`, `paperTurns` `1`, the fresh championship friction `0.15` and
the default `curlCoeff = 40`, its spin-curl term is `1.8 ≠ 0` for a rock with
zero velocity.  The game component's factor `v/(v² + 0.5)` — the formula the
repository documents as the fix for exactly this defect — is `0` at rest, and
its spin-curl term vanishes there. -/
theorem c1_vFactor_at_rest :
    vFactorSim 0 = 0.3 ∧ spinCurlSim 1 1 0.15 40 0 = 1.8 ∧
      vFactorApp 0 = 0 ∧ spinCurlApp 1 1 0.15 35 0 = 0 := by
  have h : vFactorSim 0 = 0.3 := by
    unfold vFactorSim
    rw [show (0 : ℝ) / 2 = 0 by norm_num, Real.sqrt_zero]
    exact max_eq_left (by norm_num)
  refine ⟨h, ?_, ?_, ?_⟩
  · unfold spinCurlSim; rw [h]; norm_num
  · unfold vFactorApp; norm_num
  · unfold spinCurlApp vFactorApp; norm_num

theorem tickOnce_tick (T : Tune) (sweep : Bool) (dt : ℝ) (s : SimState) :
    (tickOnce T sweep dt s).tick = s.tick + 1 := rfl

theorem tickOnce_trace_len (T : Tune) (sweep : Bool) (dt : ℝ) (s : SimState) :
    (tickOnce T sweep dt s).trace.length = s.trace.length + 1 := by
  show (s.trace ++ [_]).length = s.trace.length + 1
  simp

theorem simLoop_tick_le (T : Tune) (sweep : Bool) (dt : ℝ) :
    ∀ (fuel : ℕ) (s : SimState), (simLoop T sweep dt fuel s).tick ≤ s.tick + fuel := by
  intro fuel
  induction fuel with
  | zero => intro s; simp [simLoop]
  | succ n ih =>
      intro s
      rw [simLoop]
      split
      · calc (simLoop T sweep dt n (tickOnce T sweep dt s)).tick
            ≤ (tickOnce T sweep dt s).tick + n := ih _
          _ = s.tick + 1 + n := by rw [tickOnce_tick]
          _ ≤ s.tick + (n + 1) := by omega
      · omega

theorem simLoop_trace_len (T : Tune) (sweep : Bool) (dt : ℝ) :
    ∀ (fuel : ℕ) (s : SimState), s.trace.length = s.tick →
      (simLoop T sweep dt fuel s).trace.length = (simLoop T sweep dt fuel s).tick := by
  intro fuel
  induction fuel with
  | zero => intro s h; simpa [simLoop] using h
  | succ n ih =>
      intro s h
      rw [simLoop]
      split
      · exact ih _ (by rw [tickOnce_trace_len, tickOnce_tick, h])
      · exact h

theorem simLoop_end (T : Tune) (sweep : Bool) (dt : ℝ) :
    ∀ (fuel : ℕ) (s : SimState), (simLoop T sweep dt fuel s).tick = s.tick + fuel ∨
      ¬((simLoop T sweep dt fuel s).rock.inPlay = true ∧
        0.02 < (simLoop T sweep dt fuel s).rock.velocity ∧
        (simLoop T sweep dt fuel s).tick < 10000) := by
  intro fuel
  induction fuel with
  | zero => intro s; left; simp [simLoop]
  | succ n ih =>
      intro s
      rw [simLoop]
      split
      · rcases ih (tickOnce T sweep dt s) with h | h
        · left; rw [h, tickOnce_tick]; omega
        · right; exact h
      · right; assumption

/-- C7: every headless delivery terminates within the hard cap: the reported
tick count is at most 10000 and equals the trace length, and when the loop
ends below the cap it is because the rock left play or slowed to the rest
threshold.  Reaching the cap is reported through `summary.ticks` — `simulate`
is a total function with no failure outcome. -/
theorem c7_tick_cap (o : SimOpts) :
    (simulate o).summary.ticks ≤ 10000 ∧
      (simulate o).summary.ticks = (simulate o).trace.length ∧
      ((simulate o).summary.ticks = 10000 ∨ (simFinal o).rock.inPlay = false ∨
        (simFinal o).rock.velocity ≤ 0.02) := by
  have hts : (simulate o).summary.ticks = (simFinal o).tick := rfl
  have htr : (simulate o).trace = (simFinal o).trace := rfl
  have h1 : (simFinal o).tick ≤ 10000 := by
    calc (simFinal o).tick ≤ (simInit o).tick + 10000 :=
          simLoop_tick_le o.tune o.sweep o.dt 10000 (simInit o)
      _ = 10000 := by rw [show (simInit o).tick = 0 from rfl]
  have h2 : (simFinal o).trace.length = (simFinal o).tick := by
    apply simLoop_trace_len
    rfl
  refine ⟨by rw [hts]; exact h1, by rw [hts, htr, h2], ?_⟩
  rcases simLoop_end o.tune o.sweep o.dt 10000 (simInit o) with h | h
  · left
    rw [hts]
    show (simLoop o.tune o.sweep o.dt 10000 (simInit o)).tick = 10000
    rw [h, show (simInit o).tick = 0 from rfl]
  · by_cases hA : (simFinal o).rock.inPlay = true
    · by_cases hB : (0.02 : ℝ) < (simFinal o).rock.velocity
      · have hc : ¬((simFinal o).tick < 10000) := fun hc => h ⟨hA, hB, hc⟩
        left
        rw [hts]
        omega
      · right; right; linarith [not_lt.mp hB]
    · right; left; simpa using hA

/-- C5: the headless delivery simulation is deterministic.  `simulate` is a
pure function of its explicit inputs — `dt` is a record field, not a wall
clock sample, and no code path of `physics-sim.js` consumes `Math.random`, so
there is no RNG state to vary between runs — hence two calls agreeing on
`(aim, power, spin, profile, paperTurns, sweep, tune, dt)` produce identical
traces, even when their run `name` labels differ. -/
theorem c5_deterministic (o₁ o₂ : SimOpts)
    (ha : o₁.aim = o₂.aim) (hp : o₁.power = o₂.power) (hs : o₁.spin = o₂.spin)
    (hpr : o₁.profile = o₂.profile) (hpt : o₁.paperTurns = o₂.paperTurns)
    (hsw : o₁.sweep = o₂.sweep) (ht : o₁.tune = o₂.tune) (hdt : o₁.dt = o₂.dt) :
    (simulate o₁).trace = (simulate o₂).trace := by
  have h : simFinal o₁ = simFinal o₂ := by
    unfold simFinal simInit
    rw [ha, hp, hs, hpr, hpt, hsw, ht, hdt]
  show (simFinal o₁).trace = (simFinal o₂).trace
  rw [h]

/-- Witness for C5: two concrete runs differing only in their `name` label
produce the same trace. -/
theorem c5_deterministic_w : (simulate wOpts1).trace = (simulate wOpts2).trace :=
  c5_deterministic wOpts1 wOpts2 rfl rfl rfl rfl rfl rfl rfl rfl

theorem rockDist_comm (a b : Rock) : rockDist a b = rockDist b a := by
  unfold rockDist
  ring_nf

theorem rockDist_mul_self (a b : Rock) :
    rockDist a b * rockDist a b =
      (a.x - b.x) * (a.x - b.x) + (a.y - b.y) * (a.y - b.y) :=
  Real.mul_self_sqrt
    (by nlinarith [mul_self_nonneg (a.x - b.x), mul_self_nonneg (a.y - b.y)])

/-- The separation, flag and in-play effects of `collidePair`, independent of
whether an impulse was exchanged: each rock moves half the overlap along the
contact normal, both contact flags go true, `a` keeps its in-play state and
`b` is forced back in play. -/
theorem collidePair_shape (a b : Rock) :
    (collidePair a b).1.x =
        a.x + (a.x - b.x) / rockDist a b * (rockRadius * 2 - rockDist a b) * 0.5 ∧
      (collidePair a b).1.y =
        a.y + (a.y - b.y) / rockDist a b * (rockRadius * 2 - rockDist a b) * 0.5 ∧
      (collidePair a b).2.x =
        b.x - (a.x - b.x) / rockDist a b * (rockRadius * 2 - rockDist a b) * 0.5 ∧
      (collidePair a b).2.y =
        b.y - (a.y - b.y) / rockDist a b * (rockRadius * 2 - rockDist a b) * 0.5 ∧
      (collidePair a b).1.hasContacted = true ∧ (collidePair a b).2.hasContacted = true ∧
      (collidePair a b).1.inPlay = a.inPlay ∧ (collidePair a b).2.inPlay = true := by
  unfold collidePair
  dsimp only
  split <;> exact ⟨rfl, rfl, rfl, rfl, rfl, rfl, rfl, rfl⟩

/-- When the pair is closing, `collidePair` applies the impulse-updated
speeds. -/
theorem collidePair_vel_closing (a b : Rock) (hrv : 0 < relVel a b) :
    (collidePair a b).1.velocity = postSpeedA a b ∧
      (collidePair a b).2.velocity = postSpeedB a b := by
  unfold collidePair
  dsimp only
  rw [if_pos hrv]
  exact ⟨rfl, rfl⟩

/-- When the pair is not closing, `collidePair` exchanges no impulse:
velocities and headings are untouched. -/
theorem collidePair_vel_grazing (a b : Rock) (hrv : relVel a b ≤ 0) :
    (collidePair a b).1.velocity = a.velocity ∧ (collidePair a b).1.angle = a.angle ∧
      (collidePair a b).2.velocity = b.velocity ∧ (collidePair a b).2.angle = b.angle := by
  unfold collidePair
  dsimp only
  rw [if_neg (not_lt.mpr hrv)]
  exact ⟨rfl, rfl, rfl, rfl⟩

/-- After the symmetric separation the pair sits at exactly twice the rock
radius: zero residual overlap. -/
theorem collidePair_dist (a b : Rock) (h0 : 0 < rockDist a b) :
    rockDist (collidePair a b).1 (collidePair a b).2 = rockRadius * 2 := by
  obtain ⟨hx1, hy1, hx2, hy2, _, _, _, _⟩ := collidePair_shape a b
  have hd := rockDist_mul_self a b
  have hdne : rockDist a b ≠ 0 := ne_of_gt h0
  have hR : (0 : ℝ) < rockRadius * 2 := by unfold rockRadius; norm_num
  unfold rockDist
  rw [hx1, hy1, hx2, hy2]
  have hxx :
      a.x + (a.x - b.x) / rockDist a b * (rockRadius * 2 - rockDist a b) * 0.5 -
          (b.x - (a.x - b.x) / rockDist a b * (rockRadius * 2 - rockDist a b) * 0.5) =
        (a.x - b.x) * (rockRadius * 2 / rockDist a b) := by
    field_simp
    ring
  have hyy :
      a.y + (a.y - b.y) / rockDist a b * (rockRadius * 2 - rockDist a b) * 0.5 -
          (b.y - (a.y - b.y) / rockDist a b * (rockRadius * 2 - rockDist a b) * 0.5) =
        (a.y - b.y) * (rockRadius * 2 / rockDist a b) := by
    field_simp
    ring
  rw [hxx, hyy]
  have hsplit :
      (a.x - b.x) * (rockRadius * 2 / rockDist a b) *
            ((a.x - b.x) * (rockRadius * 2 / rockDist a b)) +
          (a.y - b.y) * (rockRadius * 2 / rockDist a b) *
            ((a.y - b.y) * (rockRadius * 2 / rockDist a b)) =
        (rockRadius * 2 / rockDist a b) ^ 2 *
          ((a.x - b.x) * (a.x - b.x) + (a.y - b.y) * (a.y - b.y)) := by
    ring
  rw [hsplit, Real.sqrt_mul (by positivity), Real.sqrt_sq (le_of_lt (div_pos hR h0)), ← hd]
  rw [show rockDist a b * rockDist a b = rockDist a b ^ 2 by ring,
    Real.sqrt_sq (le_of_lt h0)]
  field_simp

/-- The squared speed of a rock equals the squared norm of its velocity
vector. -/
theorem velSq (r : Rock) : velX r ^ 2 + velY r ^ 2 = r.velocity ^ 2 := by
  unfold velX velY
  linear_combination r.velocity ^ 2 * Real.sin_sq_add_cos_sq r.angle

/-- The contact normal is a unit vector whenever the centers are distinct. -/
theorem normalSq (a b : Rock) (h0 : 0 < rockDist a b) :
    normalX a b ^ 2 + normalY a b ^ 2 = 1 := by
  have hd := rockDist_mul_self a b
  have hdne : rockDist a b ≠ 0 := ne_of_gt h0
  unfold normalX normalY
  field_simp
  linear_combination (-1 : ℝ) * hd

/-- One closing impulse exchange removes exactly
`RESTITUTION * (1 - RESTITUTION) * rv²` of kinetic energy. -/
theorem collidePair_KE (a b : Rock) (h0 : 0 < rockDist a b) (hrv : 0 < relVel a b) :
    rockKE (collidePair a b).1 + rockKE (collidePair a b).2 =
      rockKE a + rockKE b - RESTITUTION * (1 - RESTITUTION) * relVel a b ^ 2 := by
  obtain ⟨hv1, hv2⟩ := collidePair_vel_closing a b hrv
  have ha1 : 0 ≤ (postVelA a b).1 * (postVelA a b).1 + (postVelA a b).2 * (postVelA a b).2 := by
    nlinarith [mul_self_nonneg (postVelA a b).1, mul_self_nonneg (postVelA a b).2]
  have hb1 : 0 ≤ (postVelB a b).1 * (postVelB a b).1 + (postVelB a b).2 * (postVelB a b).2 := by
    nlinarith [mul_self_nonneg (postVelB a b).1, mul_self_nonneg (postVelB a b).2]
  have hs1 : postSpeedA a b ^ 2 =
      (postVelA a b).1 * (postVelA a b).1 + (postVelA a b).2 * (postVelA a b).2 := by
    unfold postSpeedA
    rw [Real.sq_sqrt ha1]
  have hs2 : postSpeedB a b ^ 2 =
      (postVelB a b).1 * (postVelB a b).1 + (postVelB a b).2 * (postVelB a b).2 := by
    unfold postSpeedB
    rw [Real.sq_sqrt hb1]
  have hn := normalSq a b h0
  have hva := velSq a
  have hvb := velSq b
  unfold rockKE
  rw [hv1, hv2, hs1, hs2]
  unfold postVelA postVelB impulse relVel
  linear_combination (RESTITUTION * ((velX a - velX b) * normalX a b +
      (velY a - velY b) * normalY a b)) ^ 2 * hn + (1 / 2 : ℝ) * hva + (1 / 2 : ℝ) * hvb

theorem collideStep_self (rocks : List Rock) (i : ℕ) : collideStep rocks i i = rocks := by
  unfold collideStep
  rw [if_pos rfl]

/-- A full `resolveCollisions` pass over a two-rock roster whose pair
overlaps (with `a` in play and above the outer-loop speed threshold, `b` in
play) is exactly one `collidePair` application: the ordered pair `(0, 1)`
fires, and the reverse pair `(1, 0)` is a no-op because the separation leaves
the centers at exactly twice the rock radius. -/
theorem resolveCollisions_two (a b : Rock) (hA : a.inPlay = true) (hB : b.inPlay = true)
    (hv : 0.05 < a.velocity) (h0 : 0 < rockDist a b) (h1 : rockDist a b < rockRadius * 2) :
    resolveCollisions [a, b] = [(collidePair a b).1, (collidePair a b).2] := by
  obtain ⟨_, _, _, _, _, _, hP1, hP2⟩ := collidePair_shape a b
  have hr2 : List.range 2 = [0, 1] := rfl
  have hstep01 : collideStep [a, b] 0 1 = [(collidePair a b).1, (collidePair a b).2] := by
    unfold collideStep
    rw [if_neg (by norm_num)]
    simp only [List.getD_cons_zero, List.getD_cons_succ]
    rw [if_pos hB, if_pos ⟨h1, h0⟩]
    rfl
  have hstep10 :
      collideStep [(collidePair a b).1, (collidePair a b).2] 1 0 =
        [(collidePair a b).1, (collidePair a b).2] := by
    unfold collideStep
    rw [if_neg (by norm_num)]
    simp only [List.getD_cons_zero, List.getD_cons_succ]
    rw [if_pos (hP1.trans hA)]
    rw [if_neg ?_]
    intro hcon
    rw [rockDist_comm, collidePair_dist a b h0] at hcon
    exact lt_irrefl _ hcon.1
  have houter0 : outerStep [a, b] 0 = [(collidePair a b).1, (collidePair a b).2] := by
    unfold outerStep
    simp only [List.getD_cons_zero]
    rw [if_pos ⟨hA, hv⟩]
    show collideStep (collideStep [a, b] 0 0) 0 1 = _
    rw [collideStep_self, hstep01]
  have houter1 :
      outerStep [(collidePair a b).1, (collidePair a b).2] 1 =
        [(collidePair a b).1, (collidePair a b).2] := by
    unfold outerStep
    simp only [List.getD_cons_zero, List.getD_cons_succ]
    split
    · show collideStep (collideStep _ 1 0) 1 1 = _
      rw [hstep10, collideStep_self]
    · rfl
  show outerStep (outerStep [a, b] 0) 1 = _
  rw [houter0, houter1]

/-- C3: for every ordered pair of in-play rocks that overlap (center distance
strictly between 0 and twice the rock radius, the moving rock above the 0.05
speed threshold) and are closing (`rv > 0`), one collision-resolver pass
applies exactly one `collidePair`: the impulse `rv * RESTITUTION` (with
`RESTITUTION = 0.92`) updates both speeds (`postSpeedA`/`postSpeedB`), the two
rocks separate symmetrically along the normal by half the overlap each so the
pair ends at exactly twice the rock radius (zero residual overlap), both
`hasContacted` flags go true, and total kinetic energy drops by exactly
`RESTITUTION * (1 - RESTITUTION) * rv²` — strictly, since `rv > 0`. -/
theorem c3_closing_collision (a b : Rock) (h : closingPairHyp a b) :
    resolveCollisions [a, b] = [(collidePair a b).1, (collidePair a b).2] ∧
      (collidePair a b).1.velocity = postSpeedA a b ∧
      (collidePair a b).2.velocity = postSpeedB a b ∧
      (collidePair a b).1.x =
        a.x + (a.x - b.x) / rockDist a b * (rockRadius * 2 - rockDist a b) * 0.5 ∧
      (collidePair a b).1.y =
        a.y + (a.y - b.y) / rockDist a b * (rockRadius * 2 - rockDist a b) * 0.5 ∧
      (collidePair a b).2.x =
        b.x - (a.x - b.x) / rockDist a b * (rockRadius * 2 - rockDist a b) * 0.5 ∧
      (collidePair a b).2.y =
        b.y - (a.y - b.y) / rockDist a b * (rockRadius * 2 - rockDist a b) * 0.5 ∧
      rockDist (collidePair a b).1 (collidePair a b).2 = rockRadius * 2 ∧
      (collidePair a b).1.hasContacted = true ∧ (collidePair a b).2.hasContacted = true ∧
      rockKE (collidePair a b).1 + rockKE (collidePair a b).2 =
        rockKE a + rockKE b - RESTITUTION * (1 - RESTITUTION) * relVel a b ^ 2 ∧
      rockKE (collidePair a b).1 + rockKE (collidePair a b).2 < rockKE a + rockKE b := by
  obtain ⟨hA, hB, hv, h0, h1, hrv⟩ := h
  obtain ⟨hx1, hy1, hx2, hy2, hc1, hc2, _, _⟩ := collidePair_shape a b
  obtain ⟨hv1, hv2⟩ := collidePair_vel_closing a b hrv
  have hKE := collidePair_KE a b h0 hrv
  have hfac : (0 : ℝ) < RESTITUTION * (1 - RESTITUTION) := by unfold RESTITUTION; norm_num
  have hpos : 0 < RESTITUTION * (1 - RESTITUTION) * relVel a b ^ 2 :=
    mul_pos hfac (pow_pos hrv 2)
  exact ⟨resolveCollisions_two a b hA hB hv h0 h1, hv1, hv2, hx1, hy1, hx2, hy2,
    collidePair_dist a b h0, hc1, hc2, hKE, by linarith⟩

theorem wRock_dist : rockDist wRockA wRockB = 6 := by
  unfold rockDist wRockA wRockB
  norm_num
  rw [show (36 : ℝ) = 6 ^ 2 by norm_num, Real.sqrt_sq (by norm_num)]

theorem wRock_relVel : relVel wRockA wRockB = 1 := by
  unfold relVel velX velY normalX normalY
  rw [wRock_dist]
  unfold wRockA wRockB
  simp [Real.cos_zero, Real.sin_zero]

/-- Witness for C3: the concrete overlapping closing pair `wRockA`, `wRockB`
ends one resolver pass separated to exactly twice the rock radius with both
contact flags set. -/
theorem c3_closing_collision_w :
    rockDist (collidePair wRockA wRockB).1 (collidePair wRockA wRockB).2 = rockRadius * 2 ∧
      (collidePair wRockA wRockB).1.hasContacted = true := by
  have h := c3_closing_collision wRockA wRockB
    ⟨rfl, rfl, by unfold wRockA; norm_num, by rw [wRock_dist]; norm_num,
      by rw [wRock_dist]; unfold rockRadius; norm_num, by rw [wRock_relVel]; norm_num⟩
  exact ⟨h.2.2.2.2.2.2.2.1, h.2.2.2.2.2.2.2.2.1⟩

/-- C10 (implicit behavior): overlap separation and contact marking do not
require closing velocity.  For an ordered in-play pair with the first rock
above the 0.05 threshold, centers strictly between 0 and twice the rock
radius apart, and non-positive relative normal velocity, the resolver pass
exchanges no impulse (velocities and headings unchanged) yet still pushes the
rocks apart to exactly twice the rock radius and sets both `hasContacted`
flags, which exempts both rocks from the hog-line removal rule. -/
theorem c10_grazing_contact (a b : Rock) (h : grazingPairHyp a b) :
    resolveCollisions [a, b] = [(collidePair a b).1, (collidePair a b).2] ∧
      (collidePair a b).1.velocity = a.velocity ∧ (collidePair a b).1.angle = a.angle ∧
      (collidePair a b).2.velocity = b.velocity ∧ (collidePair a b).2.angle = b.angle ∧
      (collidePair a b).1.hasContacted = true ∧ (collidePair a b).2.hasContacted = true ∧
      (collidePair a b).1.x =
        a.x + (a.x - b.x) / rockDist a b * (rockRadius * 2 - rockDist a b) * 0.5 ∧
      (collidePair a b).1.y =
        a.y + (a.y - b.y) / rockDist a b * (rockRadius * 2 - rockDist a b) * 0.5 ∧
      (collidePair a b).2.x =
        b.x - (a.x - b.x) / rockDist a b * (rockRadius * 2 - rockDist a b) * 0.5 ∧
      (collidePair a b).2.y =
        b.y - (a.y - b.y) / rockDist a b * (rockRadius * 2 - rockDist a b) * 0.5 ∧
      rockDist (collidePair a b).1 (collidePair a b).2 = rockRadius * 2 ∧
      ¬ hogLineViolation (collidePair a b).1 ∧ ¬ hogLineViolation (collidePair a b).2 := by
  obtain ⟨hA, hB, hv, h0, h1, hrv⟩ := h
  obtain ⟨hx1, hy1, hx2, hy2, hc1, hc2, _, _⟩ := collidePair_shape a b
  obtain ⟨hg1, hg2, hg3, hg4⟩ := collidePair_vel_grazing a b hrv
  have hnh1 : ¬ hogLineViolation (collidePair a b).1 := by
    intro hcon
    have hfalse := hcon.2.2
    rw [hc1] at hfalse
    exact absurd hfalse (by simp)
  have hnh2 : ¬ hogLineViolation (collidePair a b).2 := by
    intro hcon
    have hfalse := hcon.2.2
    rw [hc2] at hfalse
    exact absurd hfalse (by simp)
  exact ⟨resolveCollisions_two a b hA hB hv h0 h1, hg1, hg2, hg3, hg4, hc1, hc2,
    hx1, hy1, hx2, hy2, collidePair_dist a b h0, hnh1, hnh2⟩

theorem wRockC_dist : rockDist wRockC wRockB = 6 := by
  unfold rockDist wRockC wRockB
  norm_num
  rw [show (36 : ℝ) = 6 ^ 2 by norm_num, Real.sqrt_sq (by norm_num)]

theorem wRockC_relVel : relVel wRockC wRockB = -1 := by
  unfold relVel velX velY normalX normalY
  rw [wRockC_dist]
  unfold wRockC wRockB
  simp [Real.cos_pi, Real.sin_pi, Real.cos_zero, Real.sin_zero]

/-- Witness for C10: `wRockC` recedes from `wRockB` while overlapping; the
pass leaves its speed unchanged at 1 yet exempts the struck rock from the
hog-line rule. -/
theorem c10_grazing_contact_w :
    (collidePair wRockC wRockB).1.velocity = wRockC.velocity ∧
      ¬ hogLineViolation (collidePair wRockC wRockB).2 := by
  have h := c10_grazing_contact wRockC wRockB
    ⟨rfl, rfl, by unfold wRockC; norm_num, by rw [wRockC_dist]; norm_num,
      by rw [wRockC_dist]; unfold rockRadius; norm_num, by rw [wRockC_relVel]; norm_num⟩
  exact ⟨h.2.1, h.2.2.2.2.2.2.2.2.2.2.2.2.2⟩

theorem moveRock_inPlay (T : Tune) (dt : ℝ) (sw : Bool) (g : Grid) (rock : Rock) :
    (moveRock T dt sw g rock).1.inPlay = rock.inPlay := rfl

theorem boundaryCheck_removed (m : Rock) (hm : m.inPlay = true) :
    ((boundaryCheck m).inPlay = false ↔
      (backLineViolation m ∨ sideboardViolation m ∨ hogLineViolation m)) ∧
      ((boundaryCheck m).inPlay = false →
        (boundaryCheck m).velocity = 0 ∧ (boundaryCheck m).x = 800 ∧
          (boundaryCheck m).active = false) := by
  unfold boundaryCheck removeRock
  split_ifs with h1 h2 h3
  · exact ⟨iff_of_true rfl (Or.inl h1), fun _ => ⟨rfl, rfl, rfl⟩⟩
  · exact ⟨iff_of_true rfl (Or.inr (Or.inl h2)), fun _ => ⟨rfl, rfl, rfl⟩⟩
  · exact ⟨iff_of_true rfl (Or.inr (Or.inr h3)), fun _ => ⟨rfl, rfl, rfl⟩⟩
  · refine ⟨iff_of_false (by simp [hm]) (by tauto), fun hcon => ?_⟩
    rw [hm] at hcon
    exact absurd hcon (by simp)

theorem physicsTickRock_out (T : Tune) (dt : ℝ) (sw : Bool) (g : Grid) (rock : Rock)
    (hP : rock.inPlay = false) : physicsTickRock T dt sw g rock = (rock, g) := by
  unfold physicsTickRock
  rw [if_pos hP]

/-- `rs` agrees with the roster `rocks0` at every index holding an
out-of-play rock. -/
def frozen (rocks0 rs : List Rock) : Prop :=
  ∀ (k : ℕ) (r0 : Rock), rocks0[k]? = some r0 → r0.inPlay = false → rs[k]? = some r0

theorem tickRocks_frozen (T : Tune) (dt : ℝ) (sid : Option ℕ) :
    ∀ (rocks : List Rock) (g : Grid), frozen rocks (tickRocks T dt sid rocks g).1 := by
  intro rocks
  induction rocks with
  | nil => intro g k r0 hk; simp at hk
  | cons r rs ih =>
      intro g k r0 hk hr0
      match k with
      | 0 =>
          simp only [List.getElem?_cons_zero, Option.some_inj] at hk
          subst hk
          show ((physicsTickRock T dt (decide (sid = some r.id)) g r).1 :: _)[0]? = _
          rw [physicsTickRock_out _ _ _ _ _ hr0]
          simp
      | k + 1 =>
          show (_ :: (tickRocks T dt sid rs _).1)[k + 1]? = some r0
          simp only [List.getElem?_cons_succ] at hk ⊢
          exact ih _ k r0 hk hr0

theorem collideStep_frozen (rocks0 rs : List Rock) (i j : ℕ)
    (hQ : frozen rocks0 rs) (hi : (rs.getD i default).inPlay = true) :
    frozen rocks0 (collideStep rs i j) ∧
      ((collideStep rs i j).getD i default).inPlay = true := by
  unfold collideStep
  dsimp only
  split
  · exact ⟨hQ, hi⟩
  · split
    case isFalse => exact ⟨hQ, hi⟩
    case isTrue hb =>
      split
      case isFalse => exact ⟨hQ, hi⟩
      case isTrue hd =>
        rename_i hij
        have hilt : i < rs.length := by
          by_contra hge
          rw [List.getD_eq_getElem?_getD, List.getElem?_eq_none (by omega)] at hi
          exact absurd hi (by simp [default])
        have hgeti :
            ((rs.set i (collidePair (rs.getD i default) (rs.getD j default)).1).set j
                (collidePair (rs.getD i default) (rs.getD j default)).2)[i]? =
              some (collidePair (rs.getD i default) (rs.getD j default)).1 := by
          rw [List.getElem?_set_ne (fun hji => hij hji.symm),
            List.getElem?_set_self (by simpa using hilt)]
        constructor
        · intro k r0 hk hr0
          by_cases hkj : k = j
          · subst hkj
            have := hQ k r0 hk hr0
            rw [List.getD_eq_getElem?_getD, this] at hb
            simp at hb
            exact absurd hr0 (by simp [hb])
          · by_cases hki : k = i
            · subst hki
              have := hQ k r0 hk hr0
              rw [List.getD_eq_getElem?_getD, this] at hi
              simp at hi
              exact absurd hr0 (by simp [hi])
            · rw [List.getElem?_set_ne (fun hjk => hkj hjk.symm),
                List.getElem?_set_ne (fun hik => hki hik.symm)]
              exact hQ k r0 hk hr0
        · rw [List.getD_eq_getElem?_getD, hgeti]
          have hsh := (collidePair_shape (rs.getD i default) (rs.getD j default)).2.2.2.2.2.2.1
          exact hsh.trans hi

theorem innerFold_frozen (rocks0 : List Rock) (i : ℕ) :
    ∀ (l : List ℕ) (rs : List Rock), frozen rocks0 rs →
      ((rs.getD i default).inPlay = true) →
      frozen rocks0 (l.foldl (fun rs j => collideStep rs i j) rs) := by
  intro l
  induction l with
  | nil => intro rs hQ _; exact hQ
  | cons j l ih =>
      intro rs hQ hi
      have h := collideStep_frozen rocks0 rs i j hQ hi
      exact ih (collideStep rs i j) h.1 h.2

theorem outerStep_frozen (rocks0 rs : List Rock) (i : ℕ) (hQ : frozen rocks0 rs) :
    frozen rocks0 (outerStep rs i) := by
  unfold outerStep
  dsimp only
  split
  case isTrue hg => exact innerFold_frozen rocks0 i _ rs hQ hg.1
  case isFalse => exact hQ

theorem outerFold_frozen (rocks0 : List Rock) :
    ∀ (l : List ℕ) (rs : List Rock), frozen rocks0 rs →
      frozen rocks0 (l.foldl outerStep rs) := by
  intro l
  induction l with
  | nil => intro rs hQ; exact hQ
  | cons i l ih => intro rs hQ; exact ih _ (outerStep_frozen rocks0 rs i hQ)

theorem resolveCollisions_frozen (rocks0 rs : List Rock) (hQ : frozen rocks0 rs) :
    frozen rocks0 (resolveCollisions rs) :=
  outerFold_frozen rocks0 _ rs hQ

/-- C6: for every processed rock (in play, above the rest threshold), the tick
removes it exactly when, after the force/integration step (`moveRock`), (a)
its leading edge crossed the back line, (b) its edge passed the sheet
half-width, or (c) it sits short of the hog line at rest speed without a
contact; removal zeroes the velocity, parks the rock at `x = 800` and clears
`inPlay`/`active`.  And removal is terminal within the round: a full
`physicsTick` — per-rock pass and collision resolver included — returns every
out-of-play rock unchanged, so no later tick or collision puts it back in
play. -/
theorem c6_removal_rules :
    (∀ (T : Tune) (dt : ℝ) (sw : Bool) (g : Grid) (rock : Rock),
      rock.inPlay = true → 0.02 < rock.velocity →
      (((physicsTickRock T dt sw g rock).1.inPlay = false) ↔
        (backLineViolation (moveRock T dt sw g rock).1 ∨
          sideboardViolation (moveRock T dt sw g rock).1 ∨
          hogLineViolation (moveRock T dt sw g rock).1)) ∧
      ((physicsTickRock T dt sw g rock).1.inPlay = false →
        (physicsTickRock T dt sw g rock).1.velocity = 0 ∧
        (physicsTickRock T dt sw g rock).1.x = 800 ∧
        (physicsTickRock T dt sw g rock).1.active = false)) ∧
    (∀ (T : Tune) (dt : ℝ) (sid : Option ℕ) (rocks : List Rock) (g : Grid)
      (k : ℕ) (r0 : Rock), rocks[k]? = some r0 → r0.inPlay = false →
      (physicsTick T dt sid rocks g).1[k]? = some r0) := by
  constructor
  · intro T dt sw g rock hP hv
    have hstep : (physicsTickRock T dt sw g rock).1 =
        boundaryCheck (moveRock T dt sw g rock).1 := by
      unfold physicsTickRock
      rw [if_neg (by simp [hP]), if_neg (not_le.mpr hv)]
    have hm : (moveRock T dt sw g rock).1.inPlay = true := by
      rw [moveRock_inPlay, hP]
    have h := boundaryCheck_removed (moveRock T dt sw g rock).1 hm
    rw [hstep]
    exact h
  · intro T dt sid rocks g k r0 hk hr0
    exact resolveCollisions_frozen rocks _ (tickRocks_frozen T dt sid rocks _) k r0 hk hr0

/-- Witness for C6: a moving rock at `y = 80` is over the sideboard after a
`dt = 0` step, so the tick removes it — zero velocity, parked at `x = 800`. -/
theorem c6_removal_rules_w :
    (physicsTickRock DEFAULTS_APP 0 false freshGrid wTickRock).1.inPlay = false ∧
      (physicsTickRock DEFAULTS_APP 0 false freshGrid wTickRock).1.velocity = 0 ∧
      (physicsTickRock DEFAULTS_APP 0 false freshGrid wTickRock).1.x = 800 := by
  have h := c6_removal_rules.1 DEFAULTS_APP 0 false freshGrid wTickRock rfl
    (by unfold wTickRock; norm_num)
  have hy : (moveRock DEFAULTS_APP 0 false freshGrid wTickRock).1.y = 80 := by
    simp [moveRock, wTickRock]
  have hside : sideboardViolation (moveRock DEFAULTS_APP 0 false freshGrid wTickRock).1 := by
    unfold sideboardViolation sheetHalfWidth rockRadius
    rw [hy]
    norm_num
  have hrem := h.1.mpr (Or.inr (Or.inl hside))
  exact ⟨hrem, (h.2 hrem).1, (h.2 hrem).2.1⟩

/-- For a nonempty list, the head of the ascending sort is a member and a
lower bound: it is the minimum. -/
theorem teamMin_is_min (l : List ℝ) (h : l ≠ []) :
    teamMin l ∈ l ∧ ∀ x ∈ l, teamMin l ≤ x := by
  have hp := List.perm_insertionSort (· ≤ ·) l
  have hsorted := List.sorted_insertionSort (· ≤ ·) l
  cases hsE : l.insertionSort (· ≤ ·) with
  | nil =>
      rw [hsE] at hp
      exact absurd hp.symm.eq_nil h
  | cons hd tl =>
      rw [hsE] at hp hsorted
      have hmin : teamMin l = hd := by unfold teamMin; rw [hsE]; rfl
      constructor
      · rw [hmin]
        exact hp.mem_iff.mp (List.mem_cons_self hd tl)
      · intro x hx
        rw [hmin]
        rcases List.mem_cons.mp (hp.mem_iff.mpr hx) with hxe | hxt
        · rw [hxe]
        · exact (List.sorted_cons.mp hsorted).1 x hxt

/-- C2: `scoreEnd` considers exactly the in-play rocks within
`houseRadii[3] + ROCK_RADIUS` of the button (the `houseDists` lists), and:
both lists empty — no scoring team (`-1`) and zero points; exactly one list
nonempty — that team scores one point per listed rock; both nonempty — the
team with the strictly smaller minimum distance scores, with one point per
own rock strictly closer than the opposing minimum.  The final conjunct
certifies that `teamMin` used here is the true minimum of a nonempty list. -/
theorem c2_scoring (rocks : List Rock) :
    (houseDists 0 rocks = [] → houseDists 1 rocks = [] → scoreEnd rocks = (-1, 0)) ∧
      (houseDists 0 rocks ≠ [] → houseDists 1 rocks = [] →
        scoreEnd rocks = (0, (houseDists 0 rocks).length)) ∧
      (houseDists 0 rocks = [] → houseDists 1 rocks ≠ [] →
        scoreEnd rocks = (1, (houseDists 1 rocks).length)) ∧
      (houseDists 0 rocks ≠ [] → houseDists 1 rocks ≠ [] →
        teamMin (houseDists 0 rocks) < teamMin (houseDists 1 rocks) →
        scoreEnd rocks = (0, ((houseDists 0 rocks).filter fun d =>
          decide (d < teamMin (houseDists 1 rocks))).length)) ∧
      (houseDists 0 rocks ≠ [] → houseDists 1 rocks ≠ [] →
        teamMin (houseDists 1 rocks) < teamMin (houseDists 0 rocks) →
        scoreEnd rocks = (1, ((houseDists 1 rocks).filter fun d =>
          decide (d < teamMin (houseDists 0 rocks))).length)) ∧
      (∀ l : List ℝ, l ≠ [] → teamMin l ∈ l ∧ ∀ x ∈ l, teamMin l ≤ x) := by
  have hp0 := List.perm_insertionSort (· ≤ ·) (houseDists 0 rocks)
  have hp1 := List.perm_insertionSort (· ≤ ·) (houseDists 1 rocks)
  have hl0 := hp0.length_eq
  have hl1 := hp1.length_eq
  refine ⟨?_, ?_, ?_, ?_, ?_, teamMin_is_min⟩
  · intro h0 h1
    unfold scoreEnd
    dsimp only
    rw [if_pos ⟨by rw [hl0, h0]; rfl, by rw [hl1, h1]; rfl⟩]
  · intro h0 h1
    have hne0 : ((houseDists 0 rocks).insertionSort (· ≤ ·)).length ≠ 0 := by
      rw [hl0]
      exact fun hc => h0 (List.length_eq_zero.mp hc)
    unfold scoreEnd
    dsimp only
    rw [if_neg (fun hc => hne0 hc.1), if_pos (by rw [hl1, h1]; rfl), hl0]
  · intro h0 h1
    have hne1 : ((houseDists 1 rocks).insertionSort (· ≤ ·)).length ≠ 0 := by
      rw [hl1]
      exact fun hc => h1 (List.length_eq_zero.mp hc)
    unfold scoreEnd
    dsimp only
    rw [if_neg (fun hc => hne1 hc.2), if_neg hne1, if_pos (by rw [hl0, h0]; rfl), hl1]
  · intro h0 h1 hlt
    have hne0 : ((houseDists 0 rocks).insertionSort (· ≤ ·)).length ≠ 0 := by
      rw [hl0]
      exact fun hc => h0 (List.length_eq_zero.mp hc)
    have hne1 : ((houseDists 1 rocks).insertionSort (· ≤ ·)).length ≠ 0 := by
      rw [hl1]
      exact fun hc => h1 (List.length_eq_zero.mp hc)
    have hfl := (hp0.filter (fun d =>
      decide (d < teamMin (houseDists 1 rocks)))).length_eq
    unfold scoreEnd
    dsimp only
    rw [show ((houseDists 0 rocks).insertionSort (· ≤ ·)).headD 0 =
        teamMin (houseDists 0 rocks) from rfl,
      show ((houseDists 1 rocks).insertionSort (· ≤ ·)).headD 0 =
        teamMin (houseDists 1 rocks) from rfl]
    rw [if_neg (fun hc => hne0 hc.1), if_neg hne1, if_neg hne0, if_pos hlt, hfl]
  · intro h0 h1 hlt
    have hne0 : ((houseDists 0 rocks).insertionSort (· ≤ ·)).length ≠ 0 := by
      rw [hl0]
      exact fun hc => h0 (List.length_eq_zero.mp hc)
    have hne1 : ((houseDists 1 rocks).insertionSort (· ≤ ·)).length ≠ 0 := by
      rw [hl1]
      exact fun hc => h1 (List.length_eq_zero.mp hc)
    have hfl := (hp1.filter (fun d =>
      decide (d < teamMin (houseDists 0 rocks)))).length_eq
    unfold scoreEnd
    dsimp only
    rw [show ((houseDists 0 rocks).insertionSort (· ≤ ·)).headD 0 =
        teamMin (houseDists 0 rocks) from rfl,
      show ((houseDists 1 rocks).insertionSort (· ≤ ·)).headD 0 =
        teamMin (houseDists 1 rocks) from rfl]
    rw [if_neg (fun hc => hne0 hc.1), if_neg hne1, if_neg hne0,
      if_neg (not_lt.mpr (le_of_lt hlt)), hfl]

theorem wScoreRock_dist : houseDist wScoreRock = 0 := by
  unfold houseDist wScoreRock
  norm_num

/-- Witness for C2: a roster with one in-play team-0 rock on the button scores
one point for team 0. -/
theorem c2_scoring_w : scoreEnd [wScoreRock] = (0, 1) := by
  have hd0 : houseDists 0 [wScoreRock] = [0] := by
    unfold houseDists
    rw [show ([wScoreRock].filter fun r => r.inPlay) = [wScoreRock] by rfl]
    rw [show ([wScoreRock].filter fun r =>
        decide (r.team = 0) && decide (houseDist r ≤ houseRadius3 + rockRadius)) =
        [wScoreRock] from ?_]
    · rw [show List.map houseDist [wScoreRock] = [houseDist wScoreRock] from rfl,
        wScoreRock_dist]
    · rw [List.filter_cons]
      rw [if_pos ?_]
      · rfl
      · rw [wScoreRock_dist]
        unfold houseRadius3 rockRadius
        norm_num [wScoreRock]
  have hd1 : houseDists 1 [wScoreRock] = [] := by
    unfold houseDists
    rw [show ([wScoreRock].filter fun r => r.inPlay) = [wScoreRock] by rfl]
    rw [List.filter_cons]
    rw [if_neg ?_]
    · rfl
    · norm_num [wScoreRock]
  have h := (c2_scoring [wScoreRock]).2.1 (by rw [hd0]; exact List.cons_ne_nil 0 []) hd1
  rw [h, hd0]
  rfl

end CurlClub
